import Mathlib

/-!
Verification of the Hadoop-streaming command builder in
`src/dataduct/steps/emr_streaming.py`.

The module builds the comma-joined command string for an EMR streaming
step.  `create_command` dispatches on the major version of the cluster's
AMI version string between two layouts, `create_command_hadoop_1`
(legacy: mapper/reducer referenced by full S3 uri) and
`create_command_hadoop_2` (modern: a `-files` declaration carries the
full uris and the options use base filenames).

Embedding conventions:
* A mapper / reducer script (`S3File` whose `s3_path` exposes `.uri` and
  `.base_filename`) is a `ScriptArtifact` record holding those two strings.
* The `input` / `output` data nodes are represented by their resolved
  address, the string `node.path().uri` that is the only thing
  `create_command` reads from them.
* Python lists mutated with `extend` become functional list appends in
  the same order; `','.join(...)` is `String.intercalate ","`.
* `ami_version.split('.')[0]` (the text before the first `'.'`, or the
  whole string when there is no dot) is `ami_family` below, written with
  `List.takeWhile` on the character list.
-/

namespace Dataduct

/-- A resolved script artifact: the full S3 uri (`s3_path.uri`) and the short
display name (`s3_path.base_filename`) of a mapper or reducer script. -/
structure ScriptArtifact where
  uri : String
  base_filename : String
deriving DecidableEq, Repr

/-- `HADOOP_1_SERIES = ['1', '2']` from the source. -/
def HADOOP_1_SERIES : List String := ["1", "2"]

/-- Python `ami_version.split('.')[0]`: the text before the first `'.'` of the
version string (the whole string when it has no `'.'`). -/
def ami_family (ami_version : String) : String :=
  ⟨ami_version.data.takeWhile (fun c => c != '.')⟩

/-- Token list built by `create_command_hadoop_1`: the mapper (and, when
present, reducer) options are appended to `command_options` by full uri, and
`command_options` is appended to `command`. -/
def create_command_hadoop_1_tokens (mapper : ScriptArtifact)
    (reducer : Option ScriptArtifact)
    (command command_options : List String) : List String :=
  let command_options := command_options ++ ["-mapper", mapper.uri]
  let command_options :=
    match reducer with
    | some r => command_options ++ ["-reducer", r.uri]
    | none => command_options
  command ++ command_options

/-- `create_command_hadoop_1`: the Hadoop 1.x command string,
`','.join(command)` after extending with the command options. -/
def create_command_hadoop_1 (mapper : ScriptArtifact)
    (reducer : Option ScriptArtifact)
    (command command_options : List String) : String :=
  String.intercalate "," (create_command_hadoop_1_tokens mapper reducer
    command command_options)

/-- Token list built by `create_command_hadoop_2`: `files` starts as
`[mapper.uri]`, the options reference base filenames, a reducer adds its uri
to `files` and its base filename to the options, and the pair
`['-files', '\\\\,'.join(files)]` (the delimiter is the three characters
backslash backslash comma) is appended to `command` before the options. -/
def create_command_hadoop_2_tokens (mapper : ScriptArtifact)
    (reducer : Option ScriptArtifact)
    (command command_options : List String) : List String :=
  let files := [mapper.uri]
  let command_options := command_options ++ ["-mapper", mapper.base_filename]
  let fo : List String × List String :=
    match reducer with
    | some r => (files ++ [r.uri], command_options ++ ["-reducer", r.base_filename])
    | none => (files, command_options)
  let command := command ++ ["-files", String.intercalate "\\\\," fo.1]
  command ++ fo.2

/-- `create_command_hadoop_2`: the Hadoop 2.x command string. -/
def create_command_hadoop_2 (mapper : ScriptArtifact)
    (reducer : Option ScriptArtifact)
    (command command_options : List String) : String :=
  String.intercalate "," (create_command_hadoop_2_tokens mapper reducer
    command command_options)

/-- Token list assembled by `create_command`: the fixed jar path, then
`hadoop_params` when not `None`, then the command options
`['-output', output, '-input', input]`, dispatched on membership of the
ami family in `HADOOP_1_SERIES`.  `input` and `output` are the resolved
addresses `input.path().uri` and `output.path().uri`. -/
def create_command_tokens (mapper : ScriptArtifact)
    (reducer : Option ScriptArtifact) (ami_version : String)
    (input output : String) (hadoop_params : Option (List String)) :
    List String :=
  let command := ["/home/hadoop/contrib/streaming/hadoop-streaming.jar"]
  let command :=
    match hadoop_params with
    | some ps => command ++ ps
    | none => command
  let command_options : List String := []
  let command_options := command_options ++ ["-output", output]
  let command_options := command_options ++ ["-input", input]
  if ami_family ami_version ∈ HADOOP_1_SERIES then
    create_command_hadoop_1_tokens mapper reducer command command_options
  else
    create_command_hadoop_2_tokens mapper reducer command command_options

/-- `create_command`: the command step string for the streaming step. -/
def create_command (mapper : ScriptArtifact) (reducer : Option ScriptArtifact)
    (ami_version : String) (input output : String)
    (hadoop_params : Option (List String)) : String :=
  String.intercalate "," (create_command_tokens mapper reducer ami_version
    input output hadoop_params)

/-- Modelled from the spec: `S3Path.base_filename` (the `S3Path` class lives
in the `..s3` module, which is not part of the excerpt).  The spec's
"Artifact resolver" supplies, for a script, a fully-qualified address and a
"short display name (base filename)"; per the spec's examples the address
`s3://bucket/word_mapper.py` has base filename `word_mapper.py`, i.e. the
final slash-separated component of the address, written here on the
character list (the text after the last `'/'`). -/
def base_filename_of_uri (uri : String) : String :=
  ⟨(uri.data.reverse.takeWhile (fun c => c != '/')).reverse⟩

/-- A `ScriptArtifact` as produced by the (spec-modelled) artifact resolver:
the uri together with its base filename. -/
def scriptArtifactOfUri (uri : String) : ScriptArtifact :=
  ⟨uri, base_filename_of_uri uri⟩

/-- Python `kwargs.get('input_node', None)` on an association-list model of
the keyword-argument dictionary. -/
def dictGet {α : Type} (kwargs : List (String × α)) (k : String) : Option α :=
  (kwargs.find? (fun kv => kv.1 == k)).map (fun kv => kv.2)

/-- The removal effect of Python `kwargs.pop('input_node', None)`: the
dictionary without the key. -/
def dictRemove {α : Type} (kwargs : List (String × α)) (k : String) :
    List (String × α) :=
  kwargs.filter (fun kv => kv.1 != k)

/-- Python `'input_node' in kwargs`. -/
def dictContains {α : Type} (kwargs : List (String × α)) (k : String) : Bool :=
  kwargs.any (fun kv => kv.1 == k)

/-- The input-handling prelude of `EMRStreamingStep.__init__`
(`src/dataduct/steps/emr_streaming.py`, lines 100-110): when `input_path` is
not `None` the constructor pops `input_node` from `kwargs` (otherwise it only
reads it), and then raises `ETLInputError('Both input_path and input_node
specified')` if `input_path` is not `None` and `'input_node' in kwargs`.
The result is either the error message or the pair of the selected
`input_node` and the remaining `kwargs`. -/
def emrStreamingStep_initInputCheck {α : Type} (input_path : Option String)
    (kwargs : List (String × α)) :
    Except String (Option α × List (String × α)) :=
  let gk : Option α × List (String × α) :=
    match input_path with
    | some _ => (dictGet kwargs "input_node", dictRemove kwargs "input_node")
    | none => (dictGet kwargs "input_node", kwargs)
  if input_path.isSome && dictContains gk.2 "input_node" then
    Except.error "Both input_path and input_node specified"
  else
    Except.ok gk

/-- The string produced by `create_command` is the comma join of
`create_command_tokens`, and the dispatch matches the source: the
legacy builder exactly when the ami family is in `HADOOP_1_SERIES`. -/
theorem create_command_eq_dispatch (mapper : ScriptArtifact)
    (reducer : Option ScriptArtifact) (ami_version : String)
    (input output : String) (hadoop_params : Option (List String)) :
    create_command mapper reducer ami_version input output hadoop_params =
      if ami_family ami_version ∈ HADOOP_1_SERIES then
        create_command_hadoop_1 mapper reducer
          (["/home/hadoop/contrib/streaming/hadoop-streaming.jar"] ++
            hadoop_params.getD [])
          ["-output", output, "-input", input]
      else
        create_command_hadoop_2 mapper reducer
          (["/home/hadoop/contrib/streaming/hadoop-streaming.jar"] ++
            hadoop_params.getD [])
          ["-output", output, "-input", input] := by
  by_cases h : ami_family ami_version ∈ HADOOP_1_SERIES <;>
    cases hadoop_params <;>
      simp [create_command, create_command_tokens, create_command_hadoop_1,
        create_command_hadoop_2, h]

/-- Closed form of the legacy token list. -/
theorem hadoop_1_tokens_eq (mapper : ScriptArtifact)
    (reducer : Option ScriptArtifact) (command command_options : List String) :
    create_command_hadoop_1_tokens mapper reducer command command_options =
      command ++ command_options ++ ["-mapper", mapper.uri] ++
        reducer.elim [] (fun r => ["-reducer", r.uri]) := by
  cases reducer <;> simp [create_command_hadoop_1_tokens]

/-- Closed form of the modern token list. -/
theorem hadoop_2_tokens_eq (mapper : ScriptArtifact)
    (reducer : Option ScriptArtifact) (command command_options : List String) :
    create_command_hadoop_2_tokens mapper reducer command command_options =
      command ++
        ["-files", String.intercalate "\\\\,"
          (mapper.uri :: reducer.elim [] (fun r => [r.uri]))] ++
        command_options ++ ["-mapper", mapper.base_filename] ++
        reducer.elim [] (fun r => ["-reducer", r.base_filename]) := by
  cases reducer <;> simp [create_command_hadoop_2_tokens]

/-- Closed form of the full token list assembled by `create_command`. -/
theorem create_command_tokens_eq (mapper : ScriptArtifact)
    (reducer : Option ScriptArtifact) (ami_version : String)
    (input output : String) (hadoop_params : Option (List String)) :
    create_command_tokens mapper reducer ami_version input output
        hadoop_params =
      ["/home/hadoop/contrib/streaming/hadoop-streaming.jar"] ++
        hadoop_params.getD [] ++
        (if ami_family ami_version ∈ HADOOP_1_SERIES then
          ["-output", output, "-input", input, "-mapper", mapper.uri] ++
            reducer.elim [] (fun r => ["-reducer", r.uri])
        else
          ["-files", String.intercalate "\\\\,"
              (mapper.uri :: reducer.elim [] (fun r => [r.uri])),
            "-output", output, "-input", input,
            "-mapper", mapper.base_filename] ++
            reducer.elim [] (fun r => ["-reducer", r.base_filename])) := by
  by_cases h : ami_family ami_version ∈ HADOOP_1_SERIES <;>
    cases hadoop_params <;>
      simp [create_command_tokens, hadoop_1_tokens_eq, hadoop_2_tokens_eq, h]

/-- Removing a key from the dictionary model makes the membership test for
that key false. -/
theorem dictContains_dictRemove {α : Type} (kwargs : List (String × α))
    (k : String) : dictContains (dictRemove kwargs k) k = false := by
  induction kwargs with
  | nil => rfl
  | cons kv t ih =>
      by_cases h : kv.1 == k <;>
        simp_all [dictContains, dictRemove, List.filter_cons]

/-- The `ETLInputError` raise in `EMRStreamingStep.__init__` is unreachable:
for every `input_path` and every keyword dictionary the input-handling
prelude succeeds, because the pop that precedes the membership check has
already removed `input_node` whenever `input_path` is present. -/
theorem initInputCheck_never_errors {α : Type} (input_path : Option String)
    (kwargs : List (String × α)) :
    ∃ r, emrStreamingStep_initInputCheck input_path kwargs = Except.ok r := by
  cases input_path with
  | none =>
      refine ⟨(dictGet kwargs "input_node", kwargs), ?_⟩
      simp [emrStreamingStep_initInputCheck]
  | some p =>
      refine ⟨(dictGet kwargs "input_node", dictRemove kwargs "input_node"), ?_⟩
      simp [emrStreamingStep_initInputCheck, dictContains_dictRemove]

/-- Claim C1: the spec requires the constructor to raise `ETLInputError` the
instant both `input_path` and `input_node` are supplied.  The code does not:
at the conflicting input `input_path = 's3://bucket/input'`,
`kwargs = {'input_node': node}`, the prelude pops `input_node` before the
membership check, so the check is false and the constructor proceeds with no
error. -/
theorem c1_conflicting_inputs_not_rejected :
    emrStreamingStep_initInputCheck (some "s3://bucket/input")
        [("input_node", (1 : Nat))] =
      Except.ok (some 1, ([] : List (String × Nat))) := by
  rfl

/-- Claim C6: for mapper uri `s3://bucket/word_mapper.py`, no reducer,
version `2.4.0` and no hadoop params, `create_command` is the comma join of
exactly the seven tokens of the legacy layout, for every output and input
address and every base filename of the mapper. -/
theorem c6_legacy_example (bf out_uri in_uri : String) :
    create_command ⟨"s3://bucket/word_mapper.py", bf⟩ none "2.4.0"
        in_uri out_uri none =
      String.intercalate ","
        ["/home/hadoop/contrib/streaming/hadoop-streaming.jar",
         "-output", out_uri, "-input", in_uri,
         "-mapper", "s3://bucket/word_mapper.py"] := by
  unfold create_command
  rw [create_command_tokens_eq,
    if_pos (by decide : ami_family "2.4.0" ∈ HADOOP_1_SERIES)]
  simp

/-- Claim C7: for mapper `s3://bucket/word_mapper.py`, reducer
`s3://bucket/word_reducer.py`, version `4.1.0` and no hadoop params, the
command string is the comma join of the jar path followed by the consecutive
tokens `-files`, the double-backslash-comma join of the two uris, `-output`,
`-input`, `-mapper word_mapper.py`, `-reducer word_reducer.py`, for every
output and input address.  The base filenames come from the spec-modelled
artifact resolver `scriptArtifactOfUri`. -/
theorem c7_modern_example (out_uri in_uri : String) :
    create_command (scriptArtifactOfUri "s3://bucket/word_mapper.py")
        (some (scriptArtifactOfUri "s3://bucket/word_reducer.py"))
        "4.1.0" in_uri out_uri none =
      String.intercalate ","
        ["/home/hadoop/contrib/streaming/hadoop-streaming.jar",
         "-files",
         "s3://bucket/word_mapper.py\\\\,s3://bucket/word_reducer.py",
         "-output", out_uri, "-input", in_uri,
         "-mapper", "word_mapper.py", "-reducer", "word_reducer.py"] := by
  have hm : scriptArtifactOfUri "s3://bucket/word_mapper.py" =
      ⟨"s3://bucket/word_mapper.py", "word_mapper.py"⟩ := by decide
  have hr : scriptArtifactOfUri "s3://bucket/word_reducer.py" =
      ⟨"s3://bucket/word_reducer.py", "word_reducer.py"⟩ := by decide
  have hj : String.intercalate "\\\\,"
      ["s3://bucket/word_mapper.py", "s3://bucket/word_reducer.py"] =
      "s3://bucket/word_mapper.py\\\\,s3://bucket/word_reducer.py" := by
    decide
  rw [hm, hr]
  unfold create_command
  rw [create_command_tokens_eq,
    if_neg (by decide : ¬ ami_family "4.1.0" ∈ HADOOP_1_SERIES)]
  simp [hj]

/-- Claim C9: `create_command` is a pure function of its arguments
(determinism is by construction in the embedding), and it depends on the
version string only through the text before the first dot: two version
strings with the same ami family give equal command strings. -/
theorem c9_version_only_through_family (m : ScriptArtifact)
    (r : Option ScriptArtifact) (i o : String) (p : Option (List String))
    (v1 v2 : String) (h : ami_family v1 = ami_family v2) :
    create_command m r v1 i o p = create_command m r v2 i o p := by
  unfold create_command create_command_tokens
  rw [h]

/-- Witness for C9 at version strings `2.4.0` and `2.9.1`. -/
theorem c9_version_only_through_family_witness :
    ami_family "2.4.0" = ami_family "2.9.1" ∧
      create_command ⟨"s3://b/m.py", "m.py"⟩ none "2.4.0"
          "s3://b/in" "s3://b/out" none =
        create_command ⟨"s3://b/m.py", "m.py"⟩ none "2.9.1"
          "s3://b/in" "s3://b/out" none :=
  ⟨by decide, c9_version_only_through_family ⟨"s3://b/m.py", "m.py"⟩ none
    "s3://b/in" "s3://b/out" none "2.4.0" "2.9.1" (by decide)⟩

/-- Claim C10: passing an empty `hadoop_params` list produces exactly the
same command string as passing `None`, for every combination of the other
arguments. -/
theorem c10_empty_params_eq_none (m : ScriptArtifact)
    (r : Option ScriptArtifact) (v i o : String) :
    create_command m r v i o (some []) = create_command m r v i o none := by
  rfl

/-- Counterexample to claim C2: the version string `1` contains no dot, yet
`create_command` takes the legacy path for it (its output equals the
`create_command_hadoop_1` result on the assembled trunk and differs from the
`create_command_hadoop_2` result), refuting "it never takes the legacy path
for such inputs". -/
theorem c2_no_dot_counterexample :
    ("1".data.all (fun c => c != '.')) = true ∧
    create_command ⟨"s3://b/m.py", "m.py"⟩ none "1"
        "s3://b/in" "s3://b/out" none =
      create_command_hadoop_1 ⟨"s3://b/m.py", "m.py"⟩ none
        ["/home/hadoop/contrib/streaming/hadoop-streaming.jar"]
        ["-output", "s3://b/out", "-input", "s3://b/in"] ∧
    create_command ⟨"s3://b/m.py", "m.py"⟩ none "1"
        "s3://b/in" "s3://b/out" none ≠
      create_command_hadoop_2 ⟨"s3://b/m.py", "m.py"⟩ none
        ["/home/hadoop/contrib/streaming/hadoop-streaming.jar"]
        ["-output", "s3://b/out", "-input", "s3://b/in"] := by
  refine ⟨by decide, by rfl, by decide⟩

/-- Claim C2 as amended: for every version string that contains no dot,
`create_command` treats the whole string as the ami family; it routes to the
modern variant `create_command_hadoop_2` unless that string is itself `1` or
`2`, in which case it takes the legacy path `create_command_hadoop_1`. -/
theorem c2_no_dot_family (v : String) (m : ScriptArtifact)
    (r : Option ScriptArtifact) (i o : String) (p : Option (List String))
    (h : (v.data.all (fun c => c != '.')) = true) :
    ami_family v = v ∧
    (v ∉ HADOOP_1_SERIES →
      create_command m r v i o p =
        create_command_hadoop_2 m r
          (["/home/hadoop/contrib/streaming/hadoop-streaming.jar"] ++
            p.getD [])
          ["-output", o, "-input", i]) ∧
    (v ∈ HADOOP_1_SERIES →
      create_command m r v i o p =
        create_command_hadoop_1 m r
          (["/home/hadoop/contrib/streaming/hadoop-streaming.jar"] ++
            p.getD [])
          ["-output", o, "-input", i]) := by
  obtain ⟨data⟩ := v
  have hv : ami_family ⟨data⟩ = ⟨data⟩ := by
    unfold ami_family
    exact congrArg String.mk
      (List.takeWhile_eq_self_iff.mpr (by simpa using h))
  refine ⟨hv, fun hn => ?_, fun hy => ?_⟩
  · rw [create_command_eq_dispatch, hv, if_neg hn]
  · rw [create_command_eq_dispatch, hv, if_pos hy]

/-- Witness for the amended C2 at the dot-free version string `3`. -/
theorem c2_no_dot_family_witness :
    ("3".data.all (fun c => c != '.')) = true ∧
    create_command ⟨"s3://b/m.py", "m.py"⟩ none "3"
        "s3://b/in" "s3://b/out" none =
      create_command_hadoop_2 ⟨"s3://b/m.py", "m.py"⟩ none
        (["/home/hadoop/contrib/streaming/hadoop-streaming.jar"] ++
          (none : Option (List String)).getD [])
        ["-output", "s3://b/out", "-input", "s3://b/in"] :=
  ⟨by decide, (c2_no_dot_family "3" ⟨"s3://b/m.py", "m.py"⟩ none
    "s3://b/in" "s3://b/out" none (by decide)).2.1 (by decide)⟩

/-- Claim C3: `create_command` produces the legacy token layout (mapper and
reducer referenced by full uri, no builder-emitted `-files` pair) if and only
if the text before the first dot of the version string is `1` or `2`; every
other ami family produces the modern layout, in which `-mapper` is followed
by the base filename and a `-files` token carries the full uris. -/
theorem c3_legacy_iff_family (m : ScriptArtifact) (r : Option ScriptArtifact)
    (v i o : String) (p : Option (List String)) :
    (ami_family v ∈ HADOOP_1_SERIES →
      create_command_tokens m r v i o p =
        ["/home/hadoop/contrib/streaming/hadoop-streaming.jar"] ++
          p.getD [] ++
          (["-output", o, "-input", i, "-mapper", m.uri] ++
            r.elim [] (fun rr => ["-reducer", rr.uri]))) ∧
    (ami_family v ∉ HADOOP_1_SERIES →
      create_command_tokens m r v i o p =
        ["/home/hadoop/contrib/streaming/hadoop-streaming.jar"] ++
          p.getD [] ++
          (["-files", String.intercalate "\\\\,"
              (m.uri :: r.elim [] (fun rr => [rr.uri])),
            "-output", o, "-input", i, "-mapper", m.base_filename] ++
            r.elim [] (fun rr => ["-reducer", rr.base_filename]))) ∧
    (create_command_tokens m r v i o p =
        ["/home/hadoop/contrib/streaming/hadoop-streaming.jar"] ++
          p.getD [] ++
          (["-output", o, "-input", i, "-mapper", m.uri] ++
            r.elim [] (fun rr => ["-reducer", rr.uri])) ↔
      ami_family v ∈ HADOOP_1_SERIES) := by
  have hc := create_command_tokens_eq m r v i o p
  by_cases h : ami_family v ∈ HADOOP_1_SERIES
  · rw [if_pos h] at hc
    exact ⟨fun _ => hc, fun hn => absurd h hn, by simp [hc, h]⟩
  · rw [if_neg h] at hc
    refine ⟨fun hy => absurd hy h, fun _ => hc, ?_⟩
    simp only [h, iff_false]
    intro he
    have hlen := congrArg List.length (hc.symm.trans he)
    cases r <;> simp [List.length_append] at hlen

/-- Witness for C3: the legacy implication evaluated at version `1.0`. -/
theorem c3_legacy_iff_family_witness :
    create_command_tokens ⟨"s3://b/m.py", "m.py"⟩ none "1.0"
        "s3://b/in" "s3://b/out" none =
      ["/home/hadoop/contrib/streaming/hadoop-streaming.jar", "-output",
       "s3://b/out", "-input", "s3://b/in", "-mapper", "s3://b/m.py"] := by
  have h := (c3_legacy_iff_family ⟨"s3://b/m.py", "m.py"⟩ none "1.0"
    "s3://b/in" "s3://b/out" none).1 (by decide)
  simpa using h

/-- Claim C4: when `hadoop_params` is present its tokens appear verbatim and
in order immediately after the jar-path first token, and an `-output` token
occurs strictly after all of them, in both the legacy and the modern
variants. -/
theorem c4_params_after_jar_before_output (m : ScriptArtifact)
    (r : Option ScriptArtifact) (v i o : String) (ps : List String) :
    ∃ rest, create_command_tokens m r v i o (some ps) =
        "/home/hadoop/contrib/streaming/hadoop-streaming.jar" ::
          (ps ++ rest) ∧
      "-output" ∈ rest := by
  have hc := create_command_tokens_eq m r v i o (some ps)
  by_cases h : ami_family v ∈ HADOOP_1_SERIES
  · rw [if_pos h] at hc
    refine ⟨["-output", o, "-input", i, "-mapper", m.uri] ++
      r.elim [] (fun rr => ["-reducer", rr.uri]), ?_, by simp⟩
    simpa using hc
  · rw [if_neg h] at hc
    refine ⟨["-files", String.intercalate "\\\\,"
        (m.uri :: r.elim [] (fun rr => [rr.uri])),
      "-output", o, "-input", i, "-mapper", m.base_filename] ++
      r.elim [] (fun rr => ["-reducer", rr.base_filename]), ?_, by simp⟩
    simpa using hc

/-- Claim C5: in the modern family, when both mapper and reducer are present
the token following `-files` is exactly the mapper's uri and the reducer's
uri in that order joined by the three characters backslash backslash comma;
and the mapper's uri is in the files value also without a reducer. -/
theorem c5_files_join (m rr : ScriptArtifact) (v i o : String)
    (p : Option (List String)) (h : ami_family v ∉ HADOOP_1_SERIES) :
    List.IsInfix ["-files", m.uri ++ "\\\\," ++ rr.uri]
      (create_command_tokens m (some rr) v i o p) ∧
    List.IsInfix ["-files", m.uri]
      (create_command_tokens m none v i o p) := by
  constructor
  · have hc := create_command_tokens_eq m (some rr) v i o p
    rw [if_neg h] at hc
    have hj : String.intercalate "\\\\," [m.uri, rr.uri] =
        m.uri ++ "\\\\," ++ rr.uri := rfl
    refine ⟨["/home/hadoop/contrib/streaming/hadoop-streaming.jar"] ++
      p.getD [],
      ["-output", o, "-input", i, "-mapper", m.base_filename,
       "-reducer", rr.base_filename], ?_⟩
    rw [hc]
    simp [hj]
  · have hc := create_command_tokens_eq m none v i o p
    rw [if_neg h] at hc
    have hj : String.intercalate "\\\\," [m.uri] = m.uri := rfl
    refine ⟨["/home/hadoop/contrib/streaming/hadoop-streaming.jar"] ++
      p.getD [],
      ["-output", o, "-input", i, "-mapper", m.base_filename], ?_⟩
    rw [hc]
    simp [hj]

/-- Witness for C5 at version `4.1.0`. -/
theorem c5_files_join_witness :
    (ami_family "4.1.0" ∉ HADOOP_1_SERIES) ∧
    (List.IsInfix ["-files", "s3://b/m.py" ++ "\\\\," ++ "s3://b/r.py"]
      (create_command_tokens ⟨"s3://b/m.py", "m.py"⟩
        (some ⟨"s3://b/r.py", "r.py"⟩) "4.1.0"
        "s3://b/in" "s3://b/out" none) ∧
    List.IsInfix ["-files", "s3://b/m.py"]
      (create_command_tokens ⟨"s3://b/m.py", "m.py"⟩ none "4.1.0"
        "s3://b/in" "s3://b/out" none)) :=
  ⟨by decide, c5_files_join ⟨"s3://b/m.py", "m.py"⟩ ⟨"s3://b/r.py", "r.py"⟩
    "4.1.0" "s3://b/in" "s3://b/out" none (by decide)⟩

/-- Claim C8: the reducer argument toggles all reducer-related output
atomically.  The closed form shows every reducer-dependent token (the
reducer's uri in the files value and the trailing `-reducer` pair) is
produced by the same single case split on the reducer, so there is no
partial emission; and when the reducer is absent no `-reducer` token occurs
in the output at all, provided no other argument happens to equal the
literal `-reducer`. -/
theorem c8_reducer_atomic (m : ScriptArtifact) (r : Option ScriptArtifact)
    (v i o : String) (p : Option (List String)) :
    create_command_tokens m r v i o p =
      ["/home/hadoop/contrib/streaming/hadoop-streaming.jar"] ++
        p.getD [] ++
        (if ami_family v ∈ HADOOP_1_SERIES then []
         else ["-files", String.intercalate "\\\\,"
            (m.uri :: r.elim [] (fun rr => [rr.uri]))]) ++
        ["-output", o, "-input", i] ++
        ["-mapper",
          if ami_family v ∈ HADOOP_1_SERIES then m.uri
          else m.base_filename] ++
        r.elim [] (fun rr =>
          ["-reducer",
            if ami_family v ∈ HADOOP_1_SERIES then rr.uri
            else rr.base_filename]) ∧
    (r = none → "-reducer" ∉ p.getD [] → m.uri ≠ "-reducer" →
      m.base_filename ≠ "-reducer" → o ≠ "-reducer" → i ≠ "-reducer" →
      "-reducer" ∉ create_command_tokens m r v i o p) := by
  have hc := create_command_tokens_eq m r v i o p
  by_cases h : ami_family v ∈ HADOOP_1_SERIES
  · rw [if_pos h] at hc
    constructor
    · rw [hc]
      cases r <;> simp [h]
    · rintro rfl hp hm hmb ho hi
      rw [hc]
      simp [hp, Ne.symm hm, Ne.symm ho, Ne.symm hi]
  · rw [if_neg h] at hc
    constructor
    · rw [hc]
      cases r <;> simp [h]
    · rintro rfl hp hm hmb ho hi
      have hj : String.intercalate "\\\\," [m.uri] = m.uri := rfl
      rw [hc]
      simp [hj, hp, Ne.symm hm, Ne.symm hmb, Ne.symm ho, Ne.symm hi]

/-- Witness for C8: no reducer token in the no-reducer output at a concrete
input with hadoop params present. -/
theorem c8_reducer_atomic_witness :
    "-reducer" ∉ create_command_tokens ⟨"s3://b/m.py", "m.py"⟩ none "4"
        "s3://b/in" "s3://b/out" (some ["-D", "x"]) :=
  (c8_reducer_atomic ⟨"s3://b/m.py", "m.py"⟩ none "4"
    "s3://b/in" "s3://b/out" (some ["-D", "x"])).2 rfl (by decide)
    (by decide) (by decide) (by decide) (by decide)

end Dataduct
